import Mathlib

/-!
Shallow embedding of the credential-migration gateway of the
firebase-to-supabase repository: the session-exchange edge function
(src/unnamed/part_000), its verifyOtp variant (src/unnamed/part_002) and the
migrate-firebase-password edge function embedded in
src/auth/test-session-exchange.sh.  Network collaborators (the token and
password verification services, the Supabase admin API) are modelled as
oracle values in an environment record; the Supabase user store is an
explicit list of records threaded through each handler.  JavaScript
truthiness on optional strings is modelled by the strFalsy predicate.
-/

/-- Embedded source-identity snapshot stored at key fbuser in a user record
metadata, as read by the handlers: fbuser.uid, fbuser.passwordHash,
fbuser.passwordSalt (each possibly absent). -/
structure FbSnapshot where
  uid : Option String
  passwordHash : Option String
  passwordSalt : Option String
deriving DecidableEq, Repr

/-- Metadata values: the handlers read string-valued fields and the fbuser
object; other JSON shapes at a key are irrelevant to every code path that is
modelled and are collapsed into these two constructors. -/
inductive MVal where
  | str : String → MVal
  | fb : FbSnapshot → MVal
deriving DecidableEq, Repr

/-- JavaScript object lookup on a metadata object built by literal or spread
evaluation: the association list carries entries in evaluation order and a
later entry for the same key overrides an earlier one, so lookup scans the
reversed list. -/
def jsGet (m : List (String × MVal)) (k : String) : Option MVal :=
  List.lookup k m.reverse

/-- Read of user_metadata.fbuser (undefined unless the key holds the
snapshot object), as in user.user_metadata?.fbuser. -/
def getFbuser (m : List (String × MVal)) : Option FbSnapshot :=
  match jsGet m "fbuser" with
  | some (MVal.fb s) => some s
  | _ => none

/-- Read of user.user_metadata?.fbuser?.uid with optional chaining. -/
def fbUid (m : List (String × MVal)) : Option String :=
  (getFbuser m).bind FbSnapshot.uid

/-- Target user record as the handlers see it: id, optional email, metadata
map, and the native credential held by Supabase auth (present exactly when a
native password has been set for the record; signInWithPassword succeeds
against it). -/
structure User where
  id : String
  email : Option String
  user_metadata : List (String × MVal)
  nativePassword : Option String
deriving DecidableEq, Repr

/-- JavaScript falsiness of an optional string: undefined and the empty
string are falsy, every other string is truthy. -/
def strFalsy : Option String → Bool
  | none => true
  | some s => s == ""

/-- Lower-casing used for the case-insensitive email comparisons
(JavaScript toLowerCase), written character by character so that concrete
instances evaluate inside the kernel. -/
def jsToLower (s : String) : String :=
  String.mk (s.data.map Char.toLower)

/-- Identity claims decoded from a verified Firebase token by the
verification collaborator.  A verified token always carries a subject uid;
the email claim may be absent. -/
structure FbClaims where
  uid : String
  email : Option String
deriving DecidableEq, Repr

/-- Matcher of the exchange handler (src/unnamed/part_000 lines 115-134):
matchesUid is user.user_metadata?.fbuser?.uid === firebaseUser.uid, and
matchesEmail is firebaseUser.email && user.email?.toLowerCase() ===
firebaseUser.email.toLowerCase(); the record matches when either holds. -/
def matchesClaims (c : FbClaims) (u : User) : Bool :=
  (fbUid u.user_metadata == some c.uid) ||
  (match c.email with
   | some ce => (ce != "") && (Option.map jsToLower u.email == some (jsToLower ce))
   | none => false)

/-- Spec-side match predicate, written from the words of the claim: the
embedded source external id equals the claims subject id, OR the stored
email equals the claims email ignoring letter case.  Used only to be
compared with matchesClaims. -/
def specMatch (c : FbClaims) (u : User) : Bool :=
  (fbUid u.user_metadata == some c.uid) ||
  (match c.email, u.email with
   | some ce, some se => jsToLower se == jsToLower ce
   | _, _ => false)

/-- Supabase native password login (signInWithPassword): succeeds on the
first record whose email equals the request email ignoring case and whose
native credential equals the request password. -/
def nativeSignIn (store : List User) (email pw : String) : Option User :=
  store.find? (fun u =>
    (Option.map jsToLower u.email == some (jsToLower email)) &&
    (u.nativePassword == some pw))

/-- Lookup by email used by the migrate handler (test-session-exchange.sh
line 197) and by findUserByEmail of src/unnamed/part_002: first record in
store iteration order whose email equals the request email ignoring case.
The paginated scan of part_002 walks the same sequence page by page, so for
stores within its page bound it computes the same first match. -/
def findByEmail (store : List User) (email : String) : Option User :=
  store.find? (fun u => Option.map jsToLower u.email == some (jsToLower email))

/-- Admin password update (updateUserById with a password field): sets the
native credential of every record with the given id, touching nothing
else. -/
def setNativePassword (store : List User) (i pw : String) : List User :=
  store.map (fun u => if u.id == i then { u with nativePassword := some pw } else u)

/-- Metadata update performed on session exchange (src/unnamed/part_000
lines 194-202 and 247-255): the spread of the existing user_metadata
followed by the new last_firebase_session_exchange value. -/
def recordExchange (m : List (String × MVal)) (now : String) : List (String × MVal) :=
  m ++ [("last_firebase_session_exchange", MVal.str now)]

/-- Store effect of the tracking updateUserById call: rewrite the metadata
of the record with the given id by recordExchange. -/
def trackStore (store : List User) (i now : String) : List User :=
  store.map (fun u =>
    if u.id == i then { u with user_metadata := recordExchange u.user_metadata now } else u)

/-! Migrate-firebase-password handler, embedded in
src/auth/test-session-exchange.sh lines 131-305. -/

/-- Environment of the migrate handler: the configured password
verification URL, the outcome of the POST to it as a function of the salt,
hash and password sent (none models a transport failure that throws, some
body the response text), and flags for the two admin calls. -/
structure MigrateEnv where
  pwVerifyUrl : Option String
  pwVerify : String → String → String → Option String
  listUsersOk : Bool
  updatePwOk : Bool

/-- Observable response of the migrate handler: HTTP status, error message,
hint, the migrated flag and whether a session object is in the body. -/
structure MigrateResp where
  status : Nat
  errMsg : Option String
  hint : Option String
  migrated : Option Bool
  hasSession : Bool
deriving DecidableEq, Repr

/-- Response of the missing-field guard (line 141). -/
def migrateBadRequestResp : MigrateResp :=
  { status := 400, errMsg := some "Email and password are required",
    hint := none, migrated := none, hasSession := false }

/-- Response of the already-migrated fast path (lines 172-181). -/
def fastPathResp : MigrateResp :=
  { status := 200, errMsg := none, hint := none,
    migrated := some false, hasSession := true }

/-- Response when listUsers fails (lines 189-195). -/
def listFailResp : MigrateResp :=
  { status := 401, errMsg := some "Authentication failed",
    hint := none, migrated := none, hasSession := false }

/-- Response when no record carries the email (lines 199-204). -/
def migrateUserNotFoundResp : MigrateResp :=
  { status := 404, errMsg := some "User not found",
    hint := none, migrated := none, hasSession := false }

/-- OAuth hint of the missing-source-password branch (line 216). -/
def oauthHint : String :=
  "This account may use OAuth (Google/Apple). Try signing in with your social account."

/-- Response of the missing passwordHash/passwordSalt branch
(lines 211-220): status 401 with the OAuth hint. -/
def noSourcePasswordResp : MigrateResp :=
  { status := 401, errMsg := some "Invalid credentials",
    hint := some oauthHint, migrated := none, hasSession := false }

/-- Response when FIREBASE_PW_VERIFY_URL is not configured (lines 225-231). -/
def pwServiceUnconfiguredResp : MigrateResp :=
  { status := 500, errMsg := some "Password verification service not configured",
    hint := none, migrated := none, hasSession := false }

/-- Response of the outer catch (lines 298-304), reached when the fetch to
the password verification service throws. -/
def internalErrorResp : MigrateResp :=
  { status := 500, errMsg := some "Internal server error",
    hint := none, migrated := none, hasSession := false }

/-- Response of the wrong-password branch (lines 249-254): status 401
without any hint. -/
def credentialMismatchResp : MigrateResp :=
  { status := 401, errMsg := some "Invalid credentials",
    hint := none, migrated := none, hasSession := false }

/-- Response when the password write fails (lines 264-270). -/
def migrateWriteFailResp : MigrateResp :=
  { status := 500, errMsg := some "Failed to migrate password",
    hint := none, migrated := none, hasSession := false }

/-- Response when the post-migration login fails (lines 280-286). -/
def postMigrateLoginFailResp : MigrateResp :=
  { status := 500, errMsg := some "Password migrated but login failed",
    hint := none, migrated := none, hasSession := false }

/-- Response of the successful migration path (lines 289-296). -/
def migratedResp : MigrateResp :=
  { status := 200, errMsg := none, hint := none,
    migrated := some true, hasSession := true }

/-- Full outcome of one migrate request: the response, the user store
after the request, and whether the password verification collaborator was
invoked. -/
structure MigrateOutcome where
  resp : MigrateResp
  store : List User
  verifierInvoked : Bool
deriving DecidableEq, Repr

/-- Steps 3-5 of the migrate handler (test-session-exchange.sh lines
233-296): POST to the password verification service (a thrown fetch lands
in the outer catch), the strict comparison of the response text with
valid, the password update, and the post-migration login. -/
def migrateVerifyStep (env : MigrateEnv) (store : List User)
    (email password : String) (user : User) (hash salt : String) : MigrateOutcome :=
  match env.pwVerify salt hash password with
  | none => ⟨internalErrorResp, store, true⟩
  | some body =>
    if body != "valid" then ⟨credentialMismatchResp, store, true⟩
    else
      if !env.updatePwOk then ⟨migrateWriteFailResp, store, true⟩
      else
        let store2 := setNativePassword store user.id password
        match nativeSignIn store2 email password with
        | none => ⟨postMigrateLoginFailResp, store2, true⟩
        | some _ => ⟨migratedResp, store2, true⟩

/-- Body of the migrate handler after the missing-field guard, following
test-session-exchange.sh lines 160-296 step by step: native login attempt,
listUsers, find by email, fbuser hash and salt presence check with
JavaScript truthiness, configured-URL check, then migrateVerifyStep. -/
def migrateCore (env : MigrateEnv) (store : List User) (email password : String) :
    MigrateOutcome :=
  match nativeSignIn store email password with
  | some _ => ⟨fastPathResp, store, false⟩
  | none =>
    if !env.listUsersOk then ⟨listFailResp, store, false⟩
    else
      match findByEmail store email with
      | none => ⟨migrateUserNotFoundResp, store, false⟩
      | some user =>
        match (getFbuser user.user_metadata).bind FbSnapshot.passwordHash,
              (getFbuser user.user_metadata).bind FbSnapshot.passwordSalt with
        | some hash, some salt =>
          if hash == "" || salt == "" then ⟨noSourcePasswordResp, store, false⟩
          else
            match env.pwVerifyUrl with
            | none => ⟨pwServiceUnconfiguredResp, store, false⟩
            | some _ => migrateVerifyStep env store email password user hash salt
        | _, _ => ⟨noSourcePasswordResp, store, false⟩

/-- Migrate-firebase-password handler: the missing-field guard of line 141
(JavaScript truthiness: an absent or empty email or password is rejected
with 400), then migrateCore. -/
def migrateHandler (env : MigrateEnv) (store : List User)
    (email? password? : Option String) : MigrateOutcome :=
  match email?, password? with
  | some email, some password =>
    if email == "" || password == "" then ⟨migrateBadRequestResp, store, false⟩
    else migrateCore env store email password
  | _, _ => ⟨migrateBadRequestResp, store, false⟩

/-! Exchange-firebase-session handler, src/unnamed/part_000. -/

/-- Outcome of the fetch to the token verification collaborator: a thrown
transport error (caught by the outer catch), or a response with an HTTP
status; only a 2xx response carries claims that the handler goes on to
read. -/
inductive VerifyOutcome where
  | transportFail : VerifyOutcome
  | resp : Nat → FbClaims → VerifyOutcome
deriving DecidableEq, Repr

/-- Outcome of admin.generateLink: failure (tokenError or missing data), or
an action link whose access_token and refresh_token query parameters are
the given optional strings. -/
inductive GenLinkOutcome where
  | fail : GenLinkOutcome
  | ok : Option String → Option String → GenLinkOutcome
deriving DecidableEq, Repr

/-- Outcome of an admin.updateUserById call: a thrown error, a returned
error object, or success. -/
inductive UpdateOutcome where
  | throws : UpdateOutcome
  | errs : UpdateOutcome
  | ok : UpdateOutcome
deriving DecidableEq, Repr

/-- Environment of the exchange handler: verification outcome, listUsers
flag, generateLink outcome, the outcomes of the updateUserById call on the
fallback path and on the tracking path, and the current timestamp. -/
structure ExchangeEnv where
  verify : VerifyOutcome
  listUsersOk : Bool
  genLink : GenLinkOutcome
  fallbackUpdate : UpdateOutcome
  trackUpdate : UpdateOutcome
  now : String
deriving DecidableEq, Repr

/-- Observable response of the exchange handler: status and the body fields
the code writes (absent fields are none or false). -/
structure ExchangeResp where
  status : Nat
  errMsg : Option String
  access_token : Option String
  refresh_token : Option String
  userId : Option String
  userEmail : Option String
  exchanged : Bool
deriving DecidableEq, Repr

/-- Error response body of the exchange handler. -/
def exchErr (st : Nat) (msg : String) : ExchangeResp :=
  { status := st, errMsg := some msg, access_token := none, refresh_token := none,
    userId := none, userEmail := none, exchanged := false }

/-- Body of the fallback 200 response (part_000 lines 209-220): user id and
email with exchanged set, no session tokens. -/
def fallbackResp (u : User) : ExchangeResp :=
  { status := 200, errMsg := none, access_token := none, refresh_token := none,
    userId := some u.id, userEmail := u.email, exchanged := true }

/-- Body of the success 200 response (part_000 lines 262-274). -/
def exchSuccessResp (a r : Option String) (u : User) : ExchangeResp :=
  { status := 200, errMsg := none, access_token := a, refresh_token := r,
    userId := some u.id, userEmail := u.email, exchanged := true }

/-- Outcome of one exchange request: response plus the user store after the
request. -/
structure ExchangeOutcome where
  resp : ExchangeResp
  store : List User
deriving DecidableEq, Repr

/-- Exchange-firebase-session handler (src/unnamed/part_000 lines 23-283):
missing-token guard, token verification (a non-2xx collaborator response is
mapped to 401, a thrown fetch to the outer catch 500), listUsers, the OR
matcher, generateLink with the metadata fallback branch, token extraction
with JavaScript truthiness, best-effort tracking in try/catch, and the
success response.  The falsy-URL guard of lines 45-51 is dead code because
the URL is a non-empty literal, and is omitted. -/
def exchangeHandler (env : ExchangeEnv) (store : List User)
    (firebaseToken? : Option String) : ExchangeOutcome :=
  if strFalsy firebaseToken? then ⟨exchErr 400 "Firebase token is required", store⟩
  else
    match env.verify with
    | VerifyOutcome.transportFail => ⟨exchErr 500 "Internal server error", store⟩
    | VerifyOutcome.resp st claims =>
      if st < 200 ∨ 299 < st then
        ⟨exchErr 401 "Invalid or expired Firebase token", store⟩
      else if !env.listUsersOk then ⟨exchErr 500 "Failed to find user", store⟩
      else
        match store.find? (matchesClaims claims) with
        | none => ⟨exchErr 404 "User not found", store⟩
        | some user =>
          match env.genLink with
          | GenLinkOutcome.fail =>
            match env.fallbackUpdate with
            | UpdateOutcome.throws => ⟨exchErr 500 "Failed to exchange session", store⟩
            | UpdateOutcome.errs => ⟨fallbackResp user, store⟩
            | UpdateOutcome.ok =>
              ⟨fallbackResp user, trackStore store user.id env.now⟩
          | GenLinkOutcome.ok a? r? =>
            if strFalsy a? || strFalsy r? then
              ⟨exchErr 500 "Failed to generate session tokens", store⟩
            else
              let store2 := match env.trackUpdate with
                | UpdateOutcome.ok => trackStore store user.id env.now
                | _ => store
              ⟨exchSuccessResp a? r? user, store2⟩

/-! Exchange handler variant with verifyOtp, src/unnamed/part_002, modelled
together with its console log trace. -/

/-- Log entries the part_002 handler writes, keeping the values that flow
into each console call. -/
inductive V2Log where
  | foundUser : String → V2Log
  | fullActionLink : String → V2Log
  | urlParams : Option String → Option String → Option String → V2Log
  | gotToken : V2Log
  | noTokenFound : V2Log
  | otpFailed : V2Log
  | sessionFailed : V2Log
  | sessionCreated : V2Log
deriving BEq, DecidableEq, Repr

/-- Outcome of admin.generateLink in part_002: failure, or the full action
link string together with its token_hash, token and type query
parameters. -/
inductive OtpOutcome where
  | fail : OtpOutcome
  | ok : String → Option String → Option String → Option String → OtpOutcome
deriving DecidableEq, Repr

/-- Session object returned by verifyOtp. -/
structure SessionData where
  access_token : String
  refresh_token : String
  userId : String
  userEmail : Option String
deriving DecidableEq, Repr

/-- Environment of the part_002 handler. -/
structure V2Env where
  verify : VerifyOutcome
  listUsersOk : Bool
  otp : OtpOutcome
  verifyOtpResult : Option SessionData
deriving DecidableEq, Repr

/-- Observable response of the part_002 handler. -/
structure V2Resp where
  status : Nat
  errMsg : Option String
  access_token : Option String
  refresh_token : Option String
deriving DecidableEq, Repr

/-- JavaScript disjunction tokenHash || token on optional strings with
truthiness: the first non-falsy value, or none. -/
def jsOr (a b : Option String) : Option String :=
  if strFalsy a then (if strFalsy b then none else b) else a

/-- Exchange handler variant of src/unnamed/part_002 (lines 23-201),
returning the response together with the list of log entries written:
missing-token guard, token verification, missing-email guard, find by
email, generateLink, logging of the full action link and of its token
parameters (lines 116 and 121-125), token extraction with truthiness, and
verifyOtp. -/
def exchangeV2 (env : V2Env) (store : List User) (firebaseToken? : Option String) :
    V2Resp × List V2Log :=
  if strFalsy firebaseToken? then (⟨400, some "Firebase token required", none, none⟩, [])
  else
    match env.verify with
    | VerifyOutcome.transportFail => (⟨500, some "Internal error", none, none⟩, [])
    | VerifyOutcome.resp st claims =>
      if st < 200 ∨ 299 < st then (⟨401, some "Invalid Firebase token", none, none⟩, [])
      else
        match claims.email with
        | none => (⟨400, some "No email in token", none, none⟩, [])
        | some ce =>
          if ce == "" then (⟨400, some "No email in token", none, none⟩, [])
          else if !env.listUsersOk then (⟨500, some "Internal error", none, none⟩, [])
          else
            match findByEmail store ce with
            | none => (⟨404, some "User not found", none, none⟩, [])
            | some user =>
              match env.otp with
              | OtpOutcome.fail =>
                (⟨500, some "Failed to generate session", none, none⟩,
                 [V2Log.foundUser user.id, V2Log.otpFailed])
              | OtpOutcome.ok link th? tk? ty? =>
                let log0 := [V2Log.foundUser user.id, V2Log.fullActionLink link,
                             V2Log.urlParams th? tk? ty?]
                match jsOr th? tk? with
                | none =>
                  (⟨500, some "Failed to extract token from magic link", none, none⟩,
                   log0 ++ [V2Log.noTokenFound])
                | some _ =>
                  match env.verifyOtpResult with
                  | none =>
                    (⟨500, some "Failed to create session", none, none⟩,
                     log0 ++ [V2Log.gotToken, V2Log.sessionFailed])
                  | some sd =>
                    (⟨200, none, some sd.access_token, some sd.refresh_token⟩,
                     log0 ++ [V2Log.gotToken, V2Log.sessionCreated])

/-! Concrete fixtures used by counterexamples and witnesses. -/

/-- Snapshot fixture with a source password hash and salt. -/
def fbA : FbSnapshot :=
  { uid := some "fbU1", passwordHash := some "HASH1", passwordSalt := some "SALT1" }

/-- User fixture: migrated-metadata record with mixed-case email and no
native password. -/
def userA : User :=
  { id := "u1", email := some "A@X.com",
    user_metadata := [("fbuser", MVal.fb fbA)], nativePassword := none }

/-- Store fixture holding only userA. -/
def storeA : List User := [userA]

/-- Claims fixture for the same identity with the email in lower case. -/
def claimsA : FbClaims := { uid := "fbU1", email := some "a@x.com" }

/-- Environment fixture for the part_002 handler in which every
collaborator succeeds and the generated action link embeds the one-time
token hash SECRET_OTP_HASH. -/
def envV2A : V2Env :=
  { verify := VerifyOutcome.resp 200 claimsA, listUsersOk := true,
    otp := OtpOutcome.ok
      "https://example.supabase.co/auth/v1/verify?token_hash=SECRET_OTP_HASH&type=magiclink"
      (some "SECRET_OTP_HASH") none (some "magiclink"),
    verifyOtpResult := some
      { access_token := "at1", refresh_token := "rt1",
        userId := "u1", userEmail := some "a@x.com" } }

/-- Exchange environment fixture in which generateLink fails, so the
handler takes the metadata fallback branch. -/
def envExFallback : ExchangeEnv :=
  { verify := VerifyOutcome.resp 200 claimsA, listUsersOk := true,
    genLink := GenLinkOutcome.fail, fallbackUpdate := UpdateOutcome.errs,
    trackUpdate := UpdateOutcome.ok, now := "2025-06-01T00:00:00Z" }

/-- Exchange environment fixture in which the token verification
collaborator answers HTTP 503 (collaborator failure, not a token
verdict). -/
def envEx503 : ExchangeEnv :=
  { envExFallback with verify := VerifyOutcome.resp 503 claimsA }

/-- Exchange environment fixture in which the collaborator actively
rejects the token with HTTP 401. -/
def envEx401 : ExchangeEnv :=
  { envExFallback with verify := VerifyOutcome.resp 401 claimsA }

/-- C1: the claim says the single-use sign-in artifact is never written to
the log in redeemable form; on the success path of the verifyOtp variant
the handler logs the full action link and the raw token_hash value
(src/unnamed/part_002 lines 116 and 121-125), refuting the claim on this
concrete execution, which itself completes with status 200. -/
theorem c1_artifact_logged_on_success :
    ((exchangeV2 envV2A storeA (some "firebase-token")).2).contains
      (V2Log.fullActionLink
        "https://example.supabase.co/auth/v1/verify?token_hash=SECRET_OTP_HASH&type=magiclink")
      = true ∧
    ((exchangeV2 envV2A storeA (some "firebase-token")).2).contains
      (V2Log.urlParams (some "SECRET_OTP_HASH") none (some "magiclink")) = true ∧
    (exchangeV2 envV2A storeA (some "firebase-token")).1.status = 200 := by
  refine ⟨by decide, by decide, rfl⟩

/-- C2 counterexample: when generateLink fails and the fallback metadata
update does not throw, the exchange handler returns status 200 with no
access token and no refresh token in the body, refuting the claim that no
200 response is produced without session tokens. -/
theorem c2_fallback_200_without_tokens :
    (exchangeHandler envExFallback storeA (some "tok")).resp.status = 200 ∧
    (exchangeHandler envExFallback storeA (some "tok")).resp.access_token = none ∧
    (exchangeHandler envExFallback storeA (some "tok")).resp.refresh_token = none := by
  exact ⟨rfl, rfl, rfl⟩

/-- C4 counterexample: a 503 from the claims-verification collaborator is
answered with status 401, not a 500-class failure, and the whole response
equals the one produced when the collaborator actively rejects the token
with 401, so the two outcomes are not distinguished. -/
theorem c4_non_success_mapped_to_401 :
    (exchangeHandler envEx503 storeA (some "tok")).resp.status = 401 ∧
    (exchangeHandler envEx503 storeA (some "tok")).resp.status ≠ 500 ∧
    (exchangeHandler envEx503 storeA (some "tok")).resp =
      (exchangeHandler envEx401 storeA (some "tok")).resp := by
  refine ⟨rfl, by decide, rfl⟩

/-! Helper lemmas shared by the claim theorems. -/

/-- An optional string that is not falsy holds a non-empty string. -/
lemma strFalsy_some {s : String} (h : s ≠ "") : strFalsy (some s) = false := by
  simp [strFalsy, h]

/-- A find? on a list containing an element satisfying the predicate
returns some element. -/
lemma find?_eq_some_of_mem {α : Type} (p : α → Bool) :
    ∀ (l : List α) (a : α), a ∈ l → p a = true → ∃ b, l.find? p = some b := by
  intro l
  induction l with
  | nil => intro a ha; cases ha
  | cons x xs ih =>
    intro a ha hp
    simp only [List.find?]
    cases hx : p x with
    | true => exact ⟨x, rfl⟩
    | false =>
      rcases List.mem_cons.mp ha with h | h
      · subst h; rw [hx] at hp; cases hp
      · exact ih a h hp

/-- Pointwise the code matcher and the spec matcher agree for claims whose
email field is not the (never occurring) empty string. -/
lemma matchesClaims_eq_specMatch {c : FbClaims} (h : c.email ≠ some "") (u : User) :
    matchesClaims c u = specMatch c u := by
  unfold matchesClaims specMatch
  cases hc : c.email with
  | none => cases u.email <;> rfl
  | some ce =>
    have hce : (ce != "") = true := by
      simp only [bne_iff_ne, ne_eq]
      intro he
      exact h (by rw [hc, he])
    cases hu : u.email with
    | none => simp
    | some se => simp [hce]

/-- C3: for every verified claims object (whose email claim, when present,
is never the empty string) and every stored user list, the handler matcher
finds exactly the first record in store iteration order satisfying the
spec disjunction (embedded source uid equals the claims subject id, or
stored email equals the claims email ignoring case), and in particular
finds a match whenever some record satisfies either disjunct. -/
theorem c3_matcher_is_first_or_match (c : FbClaims) (store : List User)
    (h : c.email ≠ some "") :
    store.find? (matchesClaims c) = store.find? (specMatch c) := by
  induction store with
  | nil => rfl
  | cons u us ih =>
    simp only [List.find?]
    rw [matchesClaims_eq_specMatch h u]
    cases specMatch c u <;> simp [ih]

/-- Witness for C3 at a concrete claims object and store whose emails
differ only in letter case. -/
theorem c3_matcher_is_first_or_match_witness :
    storeA.find? (matchesClaims claimsA) = storeA.find? (specMatch claimsA) :=
  c3_matcher_is_first_or_match claimsA storeA (by decide)

/-- Reading any key other than the timestamp key from the spread-updated
metadata gives the original value. -/
lemma jsGet_recordExchange {m : List (String × MVal)} {now k : String}
    (hk : k ≠ "last_firebase_session_exchange") :
    jsGet (recordExchange m now) k = jsGet m k := by
  have hb : (k == "last_firebase_session_exchange") = false :=
    beq_eq_false_iff_ne.mpr hk
  unfold jsGet recordExchange
  rw [List.reverse_append]
  simp [List.lookup, hb]

/-- Every record of the tracked store comes from a record of the original
store with the same id, email and native credential, and with every
metadata key other than the timestamp key unchanged. -/
lemma trackStore_frame {store : List User} {i now : String} {v : User}
    (hv : v ∈ trackStore store i now) (k : String)
    (hk : k ≠ "last_firebase_session_exchange") :
    ∃ u, u ∈ store ∧ v.id = u.id ∧ v.email = u.email ∧
      v.nativePassword = u.nativePassword ∧
      jsGet v.user_metadata k = jsGet u.user_metadata k := by
  unfold trackStore at hv
  rcases List.mem_map.mp hv with ⟨u, hu, hfu⟩
  by_cases hid : (u.id == i) = true
  · rw [if_pos hid] at hfu
    subst hfu
    exact ⟨u, hu, rfl, rfl, rfl, jsGet_recordExchange hk⟩
  · rw [if_neg hid] at hfu
    subst hfu
    exact ⟨u, hu, rfl, rfl, rfl, rfl⟩

/-- C10: the session-exchange metadata update spreads the existing
user_metadata and adds only the last_firebase_session_exchange value, so
every other key keeps its value (in particular the fbuser snapshot), the
timestamp key holds the new value, and every record of the store after the
tracking write differs from its original only in that one metadata key. -/
theorem c10_metadata_update_preserves_other_keys
    (m : List (String × MVal)) (now k : String)
    (store : List User) (i : String) (v : User)
    (hk : k ≠ "last_firebase_session_exchange")
    (hv : v ∈ trackStore store i now) :
    jsGet (recordExchange m now) k = jsGet m k ∧
    jsGet (recordExchange m now) "last_firebase_session_exchange" =
      some (MVal.str now) ∧
    getFbuser (recordExchange m now) = getFbuser m ∧
    ∃ u, u ∈ store ∧ v.id = u.id ∧ v.email = u.email ∧
      v.nativePassword = u.nativePassword ∧
      jsGet v.user_metadata k = jsGet u.user_metadata k := by
  refine ⟨jsGet_recordExchange hk, ?_, ?_, trackStore_frame hv k hk⟩
  · unfold jsGet recordExchange
    rw [List.reverse_append]
    simp [List.lookup]
  · unfold getFbuser
    rw [jsGet_recordExchange (by decide)]

/-- Tracked-record fixture: userA after the timestamp write. -/
def userA1 : User :=
  { id := "u1", email := some "A@X.com",
    user_metadata :=
      recordExchange [("fbuser", MVal.fb fbA)] "2025-06-01T00:00:00Z",
    nativePassword := none }

/-- Witness for C10: concrete metadata, timestamp, the fbuser key, and the
concrete tracked store membership. -/
theorem c10_metadata_update_preserves_other_keys_witness :
    jsGet (recordExchange userA.user_metadata "2025-06-01T00:00:00Z") "fbuser" =
      jsGet userA.user_metadata "fbuser" ∧
    jsGet (recordExchange userA.user_metadata "2025-06-01T00:00:00Z")
      "last_firebase_session_exchange" = some (MVal.str "2025-06-01T00:00:00Z") ∧
    getFbuser (recordExchange userA.user_metadata "2025-06-01T00:00:00Z") =
      getFbuser userA.user_metadata ∧
    ∃ u, u ∈ storeA ∧ userA1.id = u.id ∧ userA1.email = u.email ∧
      userA1.nativePassword = u.nativePassword ∧
      jsGet userA1.user_metadata "fbuser" = jsGet u.user_metadata "fbuser" :=
  c10_metadata_update_preserves_other_keys userA.user_metadata
    "2025-06-01T00:00:00Z" "fbuser" storeA "u1" userA1 (by decide) (by decide)

/-- Evaluation of the migrate handler down to the verification step, under
the hypotheses that the request fields are non-empty, the native login
fails, listUsers succeeds, the record is resolved by email, and it carries
a non-falsy source hash and salt with the verification URL configured. -/
lemma migrateHandler_to_verifyStep (env : MigrateEnv) (store : List User)
    (email password url : String) (user : User) (hash salt : String)
    (he : email ≠ "") (hp : password ≠ "")
    (hfast : nativeSignIn store email password = none)
    (hl : env.listUsersOk = true)
    (hfind : findByEmail store email = some user)
    (hhash : (getFbuser user.user_metadata).bind FbSnapshot.passwordHash = some hash)
    (hsalt : (getFbuser user.user_metadata).bind FbSnapshot.passwordSalt = some salt)
    (hh : hash ≠ "") (hs : salt ≠ "")
    (hurl : env.pwVerifyUrl = some url) :
    migrateHandler env store (some email) (some password) =
      migrateVerifyStep env store email password user hash salt := by
  unfold migrateHandler
  dsimp only
  rw [if_neg (by simp [he, hp])]
  unfold migrateCore
  rw [hfast, hl, hfind]
  dsimp only
  rw [hhash, hsalt]
  dsimp only
  rw [hurl]
  have hc : (hash == "" || salt == "") = false := by simp [hh, hs]
  rw [hc]
  simp

/-- C5: when the password verification collaborator is unreachable (the
fetch throws) or answers anything other than the text valid, the migrate
handler never returns a session, never reports a migration, performs no
store write, and in the unreachable case fails with the 500 internal
response of the outer catch. -/
theorem c5_verifier_fail_closed (env : MigrateEnv) (store : List User)
    (email password url : String) (user : User) (hash salt : String)
    (he : email ≠ "") (hp : password ≠ "")
    (hfast : nativeSignIn store email password = none)
    (hl : env.listUsersOk = true)
    (hfind : findByEmail store email = some user)
    (hhash : (getFbuser user.user_metadata).bind FbSnapshot.passwordHash = some hash)
    (hsalt : (getFbuser user.user_metadata).bind FbSnapshot.passwordSalt = some salt)
    (hh : hash ≠ "") (hs : salt ≠ "")
    (hurl : env.pwVerifyUrl = some url)
    (hbad : env.pwVerify salt hash password = none ∨
      ∃ r, env.pwVerify salt hash password = some r ∧ r ≠ "valid") :
    (migrateHandler env store (some email) (some password)).resp.hasSession = false ∧
    (migrateHandler env store (some email) (some password)).resp.status ≠ 200 ∧
    (migrateHandler env store (some email) (some password)).resp.migrated ≠ some true ∧
    (migrateHandler env store (some email) (some password)).store = store ∧
    (env.pwVerify salt hash password = none →
      (migrateHandler env store (some email) (some password)).resp = internalErrorResp) := by
  rcases hbad with hnone | ⟨r, hr, hrv⟩
  · have hstep : migrateHandler env store (some email) (some password) =
        ⟨internalErrorResp, store, true⟩ := by
      rw [migrateHandler_to_verifyStep env store email password url user hash salt
        he hp hfast hl hfind hhash hsalt hh hs hurl]
      unfold migrateVerifyStep
      rw [hnone]
    rw [hstep]
    exact ⟨rfl, by simp [internalErrorResp], by simp [internalErrorResp], rfl,
      fun _ => rfl⟩
  · have hstep : migrateHandler env store (some email) (some password) =
        ⟨credentialMismatchResp, store, true⟩ := by
      rw [migrateHandler_to_verifyStep env store email password url user hash salt
        he hp hfast hl hfind hhash hsalt hh hs hurl]
      unfold migrateVerifyStep
      rw [hr]
      dsimp only
      rw [bne_iff_ne.mpr hrv]
      rfl
    rw [hstep]
    refine ⟨rfl, by simp [credentialMismatchResp], by simp [credentialMismatchResp],
      rfl, fun hc => ?_⟩
    rw [hr] at hc
    cases hc

/-- C7: with a resolvable user carrying a source hash and salt, a
verification answer other than valid yields the 401 credential-mismatch
response before any updateUserById call, so the store is unchanged and the
resolved record still has no native password. -/
theorem c7_wrong_password_no_write (env : MigrateEnv) (store : List User)
    (email password url : String) (user : User) (hash salt r : String)
    (he : email ≠ "") (hp : password ≠ "")
    (hfast : nativeSignIn store email password = none)
    (hl : env.listUsersOk = true)
    (hfind : findByEmail store email = some user)
    (hhash : (getFbuser user.user_metadata).bind FbSnapshot.passwordHash = some hash)
    (hsalt : (getFbuser user.user_metadata).bind FbSnapshot.passwordSalt = some salt)
    (hh : hash ≠ "") (hs : salt ≠ "")
    (hurl : env.pwVerifyUrl = some url)
    (hr : env.pwVerify salt hash password = some r) (hrv : r ≠ "valid")
    (hunset : user.nativePassword = none) :
    migrateHandler env store (some email) (some password) =
      ⟨credentialMismatchResp, store, true⟩ ∧
    credentialMismatchResp.status = 401 ∧
    findByEmail (migrateHandler env store (some email) (some password)).store email =
      some user ∧
    user.nativePassword = none := by
  have h1 : migrateHandler env store (some email) (some password) =
      ⟨credentialMismatchResp, store, true⟩ := by
    rw [migrateHandler_to_verifyStep env store email password url user hash salt
      he hp hfast hl hfind hhash hsalt hh hs hurl]
    unfold migrateVerifyStep
    rw [hr]
    dsimp only
    rw [bne_iff_ne.mpr hrv]
    rfl
  refine ⟨h1, rfl, ?_, hunset⟩
  rw [h1]
  exact hfind

/-- C8: a resolved record whose fbuser snapshot lacks a source password
hash or salt (JavaScript-falsy, so absent or empty) is answered with the
401 response carrying the OAuth hint, before any verifier call and any
write, and that response differs from the hint-free credential-mismatch
response, so the caller can tell the two apart. -/
theorem c8_no_source_password_oauth_hint (env : MigrateEnv) (store : List User)
    (email password : String) (user : User)
    (he : email ≠ "") (hp : password ≠ "")
    (hfast : nativeSignIn store email password = none)
    (hl : env.listUsersOk = true)
    (hfind : findByEmail store email = some user)
    (hno : strFalsy ((getFbuser user.user_metadata).bind FbSnapshot.passwordHash) = true ∨
      strFalsy ((getFbuser user.user_metadata).bind FbSnapshot.passwordSalt) = true) :
    migrateHandler env store (some email) (some password) =
      ⟨noSourcePasswordResp, store, false⟩ ∧
    noSourcePasswordResp.hint = some oauthHint ∧
    credentialMismatchResp.hint = none ∧
    noSourcePasswordResp ≠ credentialMismatchResp := by
  have hstep : migrateHandler env store (some email) (some password) =
      ⟨noSourcePasswordResp, store, false⟩ := by
    unfold migrateHandler
    dsimp only
    rw [if_neg (by simp [he, hp])]
    unfold migrateCore
    rw [hfast, hl, hfind]
    dsimp only
    simp only [Bool.not_true, Bool.false_eq_true, if_false]
    cases hho : (getFbuser user.user_metadata).bind FbSnapshot.passwordHash with
    | none =>
      cases hso : (getFbuser user.user_metadata).bind FbSnapshot.passwordSalt with
      | none => rfl
      | some s => rfl
    | some hsh =>
      cases hso : (getFbuser user.user_metadata).bind FbSnapshot.passwordSalt with
      | none => rfl
      | some s =>
        rcases hno with h1 | h1
        · rw [hho] at h1
          have hemp : hsh = "" := by simpa [strFalsy] using h1
          subst hemp
          simp
        · rw [hso] at h1
          have hemp : s = "" := by simpa [strFalsy] using h1
          subst hemp
          simp
  exact ⟨hstep, rfl, rfl, by decide⟩

/-- After the password write, the native login for the same email and
password succeeds: the updated record is in the store and satisfies the
login predicate. -/
lemma nativeSignIn_after_set (store : List User) (email password : String)
    (user : User) (hfind : findByEmail store email = some user) :
    ∃ w, nativeSignIn (setNativePassword store user.id password) email password =
      some w := by
  unfold findByEmail at hfind
  have hmem : user ∈ store := List.mem_of_find?_eq_some hfind
  have hpred : (Option.map jsToLower user.email == some (jsToLower email)) = true := by
    simpa using List.find?_some hfind
  have hmem2 : { user with nativePassword := some password } ∈
      setNativePassword store user.id password := by
    unfold setNativePassword
    refine List.mem_map.mpr ⟨user, hmem, ?_⟩
    rw [if_pos (by simp)]
  unfold nativeSignIn
  exact find?_eq_some_of_mem _ _ _ hmem2 (by simp [hpred])

/-- Every record of the password-updated store whose id is the updated id
carries the new native password. -/
lemma mem_setNativePassword_id {store : List User} {i pw : String} {v : User}
    (hv : v ∈ setNativePassword store i pw) (hvid : v.id = i) :
    v.nativePassword = some pw := by
  unfold setNativePassword at hv
  rcases List.mem_map.mp hv with ⟨u, hu, hfu⟩
  by_cases hid : (u.id == i) = true
  · rw [if_pos hid] at hfu
    subst hfu
    rfl
  · rw [if_neg hid] at hfu
    subst hfu
    exact absurd (beq_iff_eq.mpr hvid) hid

/-- C6: with a correct plaintext (the verification collaborator answers
valid) the first migrate call returns the 200 migrated response and writes
the native password onto the resolved record, and the identical second
call succeeds through the native-login fast path with migrated false,
without invoking the verification collaborator and without any further
store write. -/
theorem c6_migrate_once_then_fast_path (env : MigrateEnv) (store : List User)
    (email password url : String) (user : User) (hash salt : String) (v : User)
    (he : email ≠ "") (hp : password ≠ "")
    (hfast : nativeSignIn store email password = none)
    (hl : env.listUsersOk = true)
    (hfind : findByEmail store email = some user)
    (hhash : (getFbuser user.user_metadata).bind FbSnapshot.passwordHash = some hash)
    (hsalt : (getFbuser user.user_metadata).bind FbSnapshot.passwordSalt = some salt)
    (hh : hash ≠ "") (hs : salt ≠ "")
    (hurl : env.pwVerifyUrl = some url)
    (hok : env.pwVerify salt hash password = some "valid")
    (hup : env.updatePwOk = true)
    (hv : v ∈ (migrateHandler env store (some email) (some password)).store)
    (hvid : v.id = user.id) :
    migrateHandler env store (some email) (some password) =
      ⟨migratedResp, setNativePassword store user.id password, true⟩ ∧
    v.nativePassword = some password ∧
    migrateHandler env (setNativePassword store user.id password)
        (some email) (some password) =
      ⟨fastPathResp, setNativePassword store user.id password, false⟩ := by
  obtain ⟨w, hw⟩ := nativeSignIn_after_set store email password user hfind
  have h1 : migrateHandler env store (some email) (some password) =
      ⟨migratedResp, setNativePassword store user.id password, true⟩ := by
    rw [migrateHandler_to_verifyStep env store email password url user hash salt
      he hp hfast hl hfind hhash hsalt hh hs hurl]
    unfold migrateVerifyStep
    simp [hok, hup, hw]
  have h2 : migrateHandler env (setNativePassword store user.id password)
      (some email) (some password) =
      ⟨fastPathResp, setNativePassword store user.id password, false⟩ := by
    unfold migrateHandler migrateCore
    simp [he, hp, hw]
  have h3 : v.nativePassword = some password := by
    rw [h1] at hv
    exact mem_setNativePassword_id hv hvid
  exact ⟨h1, h3, h2⟩

/-- Evaluation of the exchange handler on the success path: token present,
2xx verification answer, listUsers ok, matcher resolves a user, and
generateLink yields non-empty access and refresh tokens; the store
component depends only on the tracking outcome. -/
lemma exchangeHandler_success_eval (env : ExchangeEnv) (store : List User)
    (tok : String) (st : Nat) (c : FbClaims) (user : User) (a r : String)
    (htok : tok ≠ "")
    (hv : env.verify = VerifyOutcome.resp st c)
    (hst : 200 ≤ st ∧ st ≤ 299)
    (hl : env.listUsersOk = true)
    (hfind : store.find? (matchesClaims c) = some user)
    (hg : env.genLink = GenLinkOutcome.ok (some a) (some r))
    (ha : a ≠ "") (hr : r ≠ "") :
    exchangeHandler env store (some tok) =
      ⟨exchSuccessResp (some a) (some r) user,
       match env.trackUpdate with
       | UpdateOutcome.ok => trackStore store user.id env.now
       | _ => store⟩ := by
  have h1 : strFalsy (some tok) = false := strFalsy_some htok
  have h2 : ¬(st < 200 ∨ 299 < st) := by omega
  unfold exchangeHandler
  simp [h1, hv, h2, hl, hfind, hg, strFalsy_some ha, strFalsy_some hr]

/-- C9: on the success path, the response of the exchange handler does not
depend on the outcome of the tracking metadata write (the try/catch on
part_000 lines 246-259 swallows it): the response equals the one of a
successful write, carries status 200 with the minted tokens, and a failed
write leaves the store untouched. -/
theorem c9_tracking_failure_never_changes_response (env : ExchangeEnv)
    (store : List User) (tok : String) (st : Nat) (c : FbClaims) (user : User)
    (a r : String) (tu : UpdateOutcome)
    (htok : tok ≠ "")
    (hv : env.verify = VerifyOutcome.resp st c)
    (hst : 200 ≤ st ∧ st ≤ 299)
    (hl : env.listUsersOk = true)
    (hfind : store.find? (matchesClaims c) = some user)
    (hg : env.genLink = GenLinkOutcome.ok (some a) (some r))
    (ha : a ≠ "") (hr : r ≠ "") :
    (exchangeHandler { env with trackUpdate := tu } store (some tok)).resp =
      (exchangeHandler { env with trackUpdate := UpdateOutcome.ok } store
        (some tok)).resp ∧
    (exchangeHandler { env with trackUpdate := tu } store (some tok)).resp.status
      = 200 ∧
    (exchangeHandler { env with trackUpdate := tu } store
      (some tok)).resp.access_token = some a ∧
    (exchangeHandler { env with trackUpdate := tu } store
      (some tok)).resp.refresh_token = some r ∧
    (tu ≠ UpdateOutcome.ok →
      (exchangeHandler { env with trackUpdate := tu } store (some tok)).store
        = store) := by
  have e1 := exchangeHandler_success_eval { env with trackUpdate := tu } store
    tok st c user a r htok hv hst hl hfind hg ha hr
  have e2 := exchangeHandler_success_eval
    { env with trackUpdate := UpdateOutcome.ok } store
    tok st c user a r htok hv hst hl hfind hg ha hr
  rw [e1, e2]
  refine ⟨rfl, rfl, rfl, rfl, fun htu => ?_⟩
  cases tu with
  | ok => exact absurd rfl htu
  | throws => rfl
  | errs => rfl

/-- C2 amended: every 200 response of the exchange handler carries the
resolved user id and the exchanged flag, and either both session tokens
are present and non-empty (magic-link success path) or both are absent
(the fallback branch taken when generateLink fails). -/
theorem c2_amended_200_tokens_or_fallback (env : ExchangeEnv)
    (store : List User) (t? : Option String)
    (h200 : (exchangeHandler env store t?).resp.status = 200) :
    (exchangeHandler env store t?).resp.userId ≠ none ∧
    (exchangeHandler env store t?).resp.exchanged = true ∧
    ((strFalsy (exchangeHandler env store t?).resp.access_token = false ∧
      strFalsy (exchangeHandler env store t?).resp.refresh_token = false) ∨
     ((exchangeHandler env store t?).resp.access_token = none ∧
      (exchangeHandler env store t?).resp.refresh_token = none)) := by
  revert h200
  unfold exchangeHandler
  repeat' split
  all_goals intro h
  all_goals simp_all [exchErr, fallbackResp, exchSuccessResp, strFalsy]

/-- C4 amended: a transport failure of the claims-verification call is
answered by the outer catch with the 500 internal response, and any
non-2xx answer from the collaborator - active rejection and collaborator
failure alike - is answered with one fixed 401 invalid-token response, so
neither is ever treated as a valid token and the two non-2xx cases are
not distinguished. -/
theorem c4_amended_transport_500_non2xx_401 (env : ExchangeEnv)
    (store : List User) (tok : String) (st : Nat) (c : FbClaims)
    (htok : tok ≠ "") :
    (env.verify = VerifyOutcome.transportFail →
      exchangeHandler env store (some tok) =
        ⟨exchErr 500 "Internal server error", store⟩) ∧
    (env.verify = VerifyOutcome.resp st c → (st < 200 ∨ 299 < st) →
      exchangeHandler env store (some tok) =
        ⟨exchErr 401 "Invalid or expired Firebase token", store⟩) := by
  have h1 : strFalsy (some tok) = false := strFalsy_some htok
  constructor
  · intro hv
    unfold exchangeHandler
    rw [h1, hv]
    exact rfl
  · intro hv hst
    unfold exchangeHandler
    rw [h1, hv]
    dsimp only
    rw [if_pos hst]
    exact rfl

/-- Migrate environment fixture: verifier accepts exactly the SALT1/HASH1
pair with the plaintext pw-correct, every admin call succeeds. -/
def envMigA : MigrateEnv :=
  { pwVerifyUrl := some "https://pw.example.test/",
    pwVerify := fun salt hash pw =>
      if salt == "SALT1" && hash == "HASH1" && pw == "pw-correct" then some "valid"
      else some "invalid",
    listUsersOk := true, updatePwOk := true }

/-- Migrate environment fixture in which every verifier call fails at
transport level (the fetch throws). -/
def envMigDown : MigrateEnv :=
  { envMigA with pwVerify := fun _ _ _ => none }

/-- Snapshot fixture of an OAuth-only identity: no source hash or salt. -/
def fbB : FbSnapshot :=
  { uid := some "fbU2", passwordHash := none, passwordSalt := none }

/-- OAuth-only user fixture. -/
def userB : User :=
  { id := "u2", email := some "b@x.com",
    user_metadata := [("fbuser", MVal.fb fbB)], nativePassword := none }

/-- Store fixture holding only the OAuth-only user. -/
def storeB : List User := [userB]

/-- Fixture: userA after the native password write of a successful
migration. -/
def userA2 : User :=
  { id := "u1", email := some "A@X.com",
    user_metadata := [("fbuser", MVal.fb fbA)],
    nativePassword := some "pw-correct" }

/-- Exchange environment fixture for the success path: 2xx verification,
generateLink yields non-empty tokens. -/
def envExOk : ExchangeEnv :=
  { verify := VerifyOutcome.resp 200 claimsA, listUsersOk := true,
    genLink := GenLinkOutcome.ok (some "AT1") (some "RT1"),
    fallbackUpdate := UpdateOutcome.errs, trackUpdate := UpdateOutcome.throws,
    now := "2025-06-01T00:00:00Z" }

/-- Witness for the amended C2 at a concrete success-path execution. -/
theorem c2_amended_200_tokens_or_fallback_witness :
    (exchangeHandler envExOk storeA (some "tok")).resp.userId ≠ none ∧
    (exchangeHandler envExOk storeA (some "tok")).resp.exchanged = true ∧
    ((strFalsy (exchangeHandler envExOk storeA (some "tok")).resp.access_token
        = false ∧
      strFalsy (exchangeHandler envExOk storeA (some "tok")).resp.refresh_token
        = false) ∨
     ((exchangeHandler envExOk storeA (some "tok")).resp.access_token = none ∧
      (exchangeHandler envExOk storeA (some "tok")).resp.refresh_token = none)) :=
  c2_amended_200_tokens_or_fallback envExOk storeA (some "tok") (by decide)

/-- Witness for the amended C4 at the 503-collaborator fixture. -/
theorem c4_amended_transport_500_non2xx_401_witness :
    (envEx503.verify = VerifyOutcome.transportFail →
      exchangeHandler envEx503 storeA (some "tok") =
        ⟨exchErr 500 "Internal server error", storeA⟩) ∧
    (envEx503.verify = VerifyOutcome.resp 503 claimsA →
      ((503 : Nat) < 200 ∨ 299 < (503 : Nat)) →
      exchangeHandler envEx503 storeA (some "tok") =
        ⟨exchErr 401 "Invalid or expired Firebase token", storeA⟩) :=
  c4_amended_transport_500_non2xx_401 envEx503 storeA "tok" 503 claimsA (by decide)

/-- Witness for C5 at the unreachable-verifier fixture. -/
theorem c5_verifier_fail_closed_witness :
    (migrateHandler envMigDown storeA (some "a@x.com")
      (some "pw-correct")).resp.hasSession = false ∧
    (migrateHandler envMigDown storeA (some "a@x.com")
      (some "pw-correct")).resp.status ≠ 200 ∧
    (migrateHandler envMigDown storeA (some "a@x.com")
      (some "pw-correct")).resp.migrated ≠ some true ∧
    (migrateHandler envMigDown storeA (some "a@x.com")
      (some "pw-correct")).store = storeA ∧
    (envMigDown.pwVerify "SALT1" "HASH1" "pw-correct" = none →
      (migrateHandler envMigDown storeA (some "a@x.com")
        (some "pw-correct")).resp = internalErrorResp) :=
  c5_verifier_fail_closed envMigDown storeA "a@x.com" "pw-correct"
    "https://pw.example.test/" userA "HASH1" "SALT1"
    (by decide) (by decide) (by decide) rfl (by decide) (by decide) (by decide)
    (by decide) (by decide) rfl (Or.inl rfl)

/-- Witness for C6 at the accepting-verifier fixture. -/
theorem c6_migrate_once_then_fast_path_witness :
    migrateHandler envMigA storeA (some "a@x.com") (some "pw-correct") =
      ⟨migratedResp, setNativePassword storeA "u1" "pw-correct", true⟩ ∧
    userA2.nativePassword = some "pw-correct" ∧
    migrateHandler envMigA (setNativePassword storeA "u1" "pw-correct")
        (some "a@x.com") (some "pw-correct") =
      ⟨fastPathResp, setNativePassword storeA "u1" "pw-correct", false⟩ :=
  c6_migrate_once_then_fast_path envMigA storeA "a@x.com" "pw-correct"
    "https://pw.example.test/" userA "HASH1" "SALT1" userA2
    (by decide) (by decide) (by decide) rfl (by decide) (by decide) (by decide)
    (by decide) (by decide) rfl rfl rfl (by decide) rfl

/-- Witness for C7 at a wrong-plaintext execution. -/
theorem c7_wrong_password_no_write_witness :
    migrateHandler envMigA storeA (some "a@x.com") (some "pw-wrong") =
      ⟨credentialMismatchResp, storeA, true⟩ ∧
    credentialMismatchResp.status = 401 ∧
    findByEmail (migrateHandler envMigA storeA (some "a@x.com")
      (some "pw-wrong")).store "a@x.com" = some userA ∧
    userA.nativePassword = none :=
  c7_wrong_password_no_write envMigA storeA "a@x.com" "pw-wrong"
    "https://pw.example.test/" userA "HASH1" "SALT1" "invalid"
    (by decide) (by decide) (by decide) rfl (by decide) (by decide) (by decide)
    (by decide) (by decide) rfl rfl (by decide) rfl

/-- Witness for C8 at the OAuth-only record. -/
theorem c8_no_source_password_oauth_hint_witness :
    migrateHandler envMigA storeB (some "b@x.com") (some "anything") =
      ⟨noSourcePasswordResp, storeB, false⟩ ∧
    noSourcePasswordResp.hint = some oauthHint ∧
    credentialMismatchResp.hint = none ∧
    noSourcePasswordResp ≠ credentialMismatchResp :=
  c8_no_source_password_oauth_hint envMigA storeB "b@x.com" "anything" userB
    (by decide) (by decide) (by decide) rfl (by decide) (Or.inl rfl)

/-- Witness for C9 comparing a throwing and a succeeding tracking write on
the concrete success-path fixture. -/
theorem c9_tracking_failure_never_changes_response_witness :
    (exchangeHandler { envExOk with trackUpdate := UpdateOutcome.throws }
      storeA (some "tok")).resp =
      (exchangeHandler { envExOk with trackUpdate := UpdateOutcome.ok }
        storeA (some "tok")).resp ∧
    (exchangeHandler { envExOk with trackUpdate := UpdateOutcome.throws }
      storeA (some "tok")).resp.status = 200 ∧
    (exchangeHandler { envExOk with trackUpdate := UpdateOutcome.throws }
      storeA (some "tok")).resp.access_token = some "AT1" ∧
    (exchangeHandler { envExOk with trackUpdate := UpdateOutcome.throws }
      storeA (some "tok")).resp.refresh_token = some "RT1" ∧
    (UpdateOutcome.throws ≠ UpdateOutcome.ok →
      (exchangeHandler { envExOk with trackUpdate := UpdateOutcome.throws }
        storeA (some "tok")).store = storeA) :=
  c9_tracking_failure_never_changes_response envExOk storeA "tok" 200 claimsA
    userA "AT1" "RT1" UpdateOutcome.throws
    (by decide) rfl (by decide) rfl (by decide) rfl (by decide) (by decide)
